import Mathlib

/-!
# Verification of the iCal-Poke-Bridge calendar engine

Shallow embedding of the event translation and mutation logic of
`src/server.py` (tools `list_my_events`, `create_my_event`, `update_my_event`),
together with the parts of the repository module `ical_utils` that the server
calls but whose source file is absent, modelled from the specification.

Python-specific conventions that the embedding captures explicitly:
* `str(None)` is the string `"None"` (`pyStr`);
* an `Optional[str]` argument is *truthy* iff it is present and non-empty
  (`truthy`);
* `next(iterator)` on an empty iterator raises `StopIteration`.
-/

namespace ICalPokeBridge

/-- A zone-aware instant as produced by the temporal normalizer.  `raw` is the
normalized date-time text; `zone` is `some z` when the instant was interpreted
in zone `z` (a supplied hint or the UTC default), `none` when the text carried
its own explicit zone marker. -/
structure Instant where
  raw : String
  zone : Option String
  deriving DecidableEq, Repr

/-- A DTSTART/DTEND value: either a bare calendar date (all-day events) or a
zone-aware instant. -/
inductive TimeValue where
  | dateOnly (d : String)
  | instant (i : Instant)
  deriving DecidableEq, Repr

/-- Typed engine errors (spec section 7). -/
inductive EngineError where
  | malformedTimestamp
  | invalidReminderOffset
  | invalidAnchor
  deriving DecidableEq, Repr

/-- Python-level exceptions surfaced by the tool handlers. -/
inductive PyError where
  | stopIteration
  | valueError
  | jsonDecodeError
  | engine (e : EngineError)
  deriving DecidableEq, Repr

/-- A VALARM sub-object as built by `ICalUtils.create_alarm`. -/
structure Alarm where
  minutes_before : Int
  message : String
  action : String
  related : String
  deriving DecidableEq, Repr

/-- Python `str()` applied to an optional text property: `None` prints as the
literal string `"None"`; a present text property prints as its text. -/
def pyStr : Option String → String
  | none => "None"
  | some s => s

/-- Python truthiness of an `Optional[str]` argument: present and non-empty. -/
def truthy : Option String → Bool
  | none => false
  | some s => !(s = "")

/-- ASCII uppercasing of one character (Python `str.upper` restricted to the
ASCII property values this system passes around). -/
def pyUpperChar (c : Char) : Char :=
  if 'a' ≤ c ∧ c ≤ 'z' then Char.ofNat (c.toNat - 32) else c

/-- ASCII uppercasing of a string. -/
def pyUpper (s : String) : String :=
  String.mk (s.toList.map pyUpperChar)

/-- Modelled from the spec: `ICalUtils.create_alarm` (the Reminder Builder of
section 4.2), whose source file `ical_utils.py` is not under `src/`.
`build(offset_minutes, message, action, anchor)`: a negative offset signals
`InvalidReminderOffset`; anchor and action are case-normalized and an
unrecognized anchor signals `InvalidAnchor`; pure construction. -/
def create_alarm (offset_minutes : Int) (message : String) (action : String)
    (anchor : String) : Except EngineError Alarm :=
  if offset_minutes < 0 then
    .error .invalidReminderOffset
  else
    let anchorN := pyUpper anchor
    if anchorN = "START" ∨ anchorN = "END" then
      .ok { minutes_before := offset_minutes, message := message,
            action := pyUpper action, related := anchorN }
    else
      .error .invalidAnchor

/-- Modelled from the spec: the well-formedness test of the temporal
normalizer (section 4.1).  The spec does not pin the exact date-time grammar;
we model a well-formed text as one of length at least 10 starting with a
4-digit year, which is all the claims depend on. -/
def isWellFormedTimestamp (s : String) : Bool :=
  decide (10 ≤ s.length) && (s.toList.take 4).all Char.isDigit

/-- Modelled from the spec: whether the text carries explicit zone
information (a trailing Z designator or an explicit offset). -/
def hasZoneMarker (s : String) : Bool :=
  (s.toList.getLast?.map (· == 'Z')).getD false || s.toList.contains '+'

/-- Modelled from the spec: the non-empty-text path of
`ICalUtils.parse_iso_datetime` (section 4.1): malformed text signals
`MalformedTimestamp`; otherwise the instant is interpreted in the carried
zone if the text has one, else in the supplied hint, else in UTC. -/
def parse_iso_req (s : String) (zone_hint : Option String) :
    Except EngineError Instant :=
  if isWellFormedTimestamp s then
    .ok { raw := s,
          zone := if hasZoneMarker s then none else some (zone_hint.getD "UTC") }
  else
    .error .malformedTimestamp

/-- Modelled from the spec: `ICalUtils.parse_iso_datetime(text, zone_hint)`
(section 4.1): empty or absent text yields `null` (never an error); malformed
text signals `MalformedTimestamp`; otherwise a zone-aware instant. -/
def parse_iso_datetime (text : Option String) (zone_hint : Option String) :
    Except EngineError (Option Instant) :=
  match text with
  | none => .ok none
  | some s => if s = "" then .ok none else (parse_iso_req s zone_hint).map some

/-- A decoded VEVENT as read back from the wire (the original event of an
update).  Optional fields model properties the original may not carry; the
properties unconditionally dereferenced by the server (`uid`,
`dtstamp`, `dtstart`, `dtend` via `.dt`) are required. -/
structure VEvent where
  uid : String
  dtstamp : Instant
  dtstart : TimeValue
  dtend : TimeValue
  summary : Option String
  description : Option String
  location : Option String
  rrule : Option String
  sequence : Option Nat
  alarms : List Alarm
  deriving DecidableEq, Repr

/-- Modelled from the spec: `ICalUtils.get_sequence_number(original_event)`
(missing `ical_utils.py`): per section 4.4 the revision is read from the
original, absence read as 0, and incremented by exactly 1; the server writes
the result as the new event's `sequence`. -/
def get_sequence_number (orig : VEvent) : Nat :=
  orig.sequence.getD 0 + 1

/-- The VEVENT the update path builds: every text field is added
unconditionally (`new_event.add(...)`), hence required here. -/
structure NewVEvent where
  uid : String
  dtstamp : Instant
  dtstart : TimeValue
  dtend : TimeValue
  summary : String
  description : String
  location : String
  rrule : Option String
  sequence : Nat
  alarms : List Alarm
  deriving DecidableEq, Repr

/-- The optional arguments of `update_my_event` that feed the new event
(`event_url` and `calendar_name` only locate the event and are omitted;
`uid` is kept to show it does not leak into the output). -/
structure UpdateOverlay where
  uid : Option String
  summary : Option String
  start : Option String
  ends : Option String
  description : Option String
  location : Option String
  timezone_name : Option String
  rrule : Option String
  deriving DecidableEq, Repr

/-- The pure field-merge of `update_my_event` (src/server.py lines 242-259):
build a new VEVENT from the original plus the overlay.  `uid` and `dtstamp`
are copied from the original; `dtstart`/`dtend` are re-parsed when the
overlay supplies truthy text, else copied; `summary`/`description`/`location`
are the truthy overlay value or `str(original.get(...))`; `rrule` is the
truthy overlay value, else the original's when present; `sequence` is
`get_sequence_number(original)`; alarms are copied by
`for a in original.walk("valarm"): new_event.add_component(a)`. -/
def plan_update (orig : VEvent) (ov : UpdateOverlay) :
    Except EngineError NewVEvent :=
  match (if truthy ov.start then
      (parse_iso_req (ov.start.getD "") ov.timezone_name).map TimeValue.instant
    else .ok orig.dtstart) with
  | .error e => .error e
  | .ok dtstart =>
  match (if truthy ov.ends then
      (parse_iso_req (ov.ends.getD "") ov.timezone_name).map TimeValue.instant
    else .ok orig.dtend) with
  | .error e => .error e
  | .ok dtend =>
  .ok { uid := orig.uid,
        dtstamp := orig.dtstamp,
        dtstart := dtstart,
        dtend := dtend,
        summary := if truthy ov.summary then ov.summary.getD ""
                   else pyStr orig.summary,
        description := if truthy ov.description then ov.description.getD ""
                       else pyStr orig.description,
        location := if truthy ov.location then ov.location.getD ""
                    else pyStr orig.location,
        rrule := if truthy ov.rrule then ov.rrule
                 else match orig.rrule with
                      | some r => some r
                      | none => none,
        sequence := get_sequence_number orig,
        alarms := orig.alarms }

/-- The decoded original container (`IcsCalendar.from_ical(...)`): the list of
VEVENT sub-components in wire order. -/
structure OrigContainer where
  vevents : List VEvent
  deriving DecidableEq, Repr

/-- `next(original_cal.walk("vevent"))` (src/server.py line 239): the first
VEVENT of the container, raising `StopIteration` when there is none; any
further VEVENTs are ignored. -/
def walk_vevent (c : OrigContainer) : Except PyError VEvent :=
  match c.vevents with
  | [] => .error .stopIteration
  | e :: _ => .ok e

/-- The container the tool emits: one event plus whatever timezone blocks the
best-effort `add_missing_timezones` enrichment contributed. -/
structure OutContainer (α : Type) where
  event : α
  timezones : List String
  deriving DecidableEq, Repr

/-- The `try: cal.add_missing_timezones() except Exception: pass` step: the
enrichment outcome is a fallible sub-step; on failure the container is left
without the blocks and no error propagates. -/
def applied_timezones (enrich : Except String (List String)) : List String :=
  match enrich with
  | .ok tzs => tzs
  | .error _ => []

/-- The wire-to-wire core of `update_my_event` (src/server.py lines 238-267),
after the CalDAV fetch: locate the single-used VEVENT, merge with the
overlay, attach enrichment output.  `now` is the processing-time clock
reading (`datetime.now(timezone.utc)`); the update path never consults it. -/
def update_my_event_core (now : Instant) (c : OrigContainer)
    (ov : UpdateOverlay) (enrich : Except String (List String)) :
    Except PyError (OutContainer NewVEvent) :=
  let _ := now
  match walk_vevent c with
  | .error e => .error e
  | .ok orig =>
  match plan_update orig ov with
  | .error e => .error (.engine e)
  | .ok ev => .ok { event := ev, timezones := applied_timezones enrich }

/-- One entry of the JSON `alarm_configs` list: a dict read with
`.get(key, default)`, so every key is optional. -/
structure AlarmConfig where
  minutes_before : Option Int
  description : Option String
  action : Option String
  related : Option String
  deriving DecidableEq, Repr

/-- The `for alarm_config in parsed_alarm_configs` loop body under
`try/except: pass` (src/server.py lines 187-196): alarms built so far were
already added to the event when a later `create_alarm` raises, so the loop
keeps the successful prefix and silently stops at the first failure. -/
def add_alarms_from_configs : List AlarmConfig → List Alarm → List Alarm
  | [], acc => acc
  | cfg :: rest, acc =>
    match create_alarm (cfg.minutes_before.getD 15)
        (cfg.description.getD "Reminder") (cfg.action.getD "DISPLAY")
        (cfg.related.getD "START") with
    | .ok a => add_alarms_from_configs rest (acc ++ [a])
    | .error _ => acc

/-- The alarm-handling block of `create_my_event` (src/server.py lines
184-199).  `json_loads` stands for Python's `json.loads` restricted to this
payload shape.  A truthy `alarm_configs` string takes the structured branch,
whose failures (JSON decoding and alarm construction alike) are swallowed by
`except Exception: pass`; otherwise a non-negative `alarm_minutes_before`
yields one alarm via `create_alarm` outside any local handler, and a negative
one is skipped by the `>= 0` guard. -/
def handle_alarms (json_loads : String → Except PyError (List AlarmConfig))
    (alarm_configs : Option String) (alarm_minutes_before : Option Int) :
    Except EngineError (List Alarm) :=
  if truthy alarm_configs then
    match json_loads (alarm_configs.getD "") with
    | .ok cfgs => .ok (add_alarms_from_configs cfgs [])
    | .error _ => .ok []
  else
    match alarm_minutes_before with
    | some n =>
      if 0 ≤ n then (create_alarm n "Reminder" "DISPLAY" "START").map ([·])
      else .ok []
    | none => .ok []

/-- Python `date.fromisoformat(s.strip())`: accepts exactly a
`YYYY-MM-DD` text (month/day range checks elided; no claim depends on them),
raising `ValueError` otherwise. -/
def isIsoDate (s : String) : Bool :=
  match s.toList with
  | [y1, y2, y3, y4, h1, m1, m2, h2, d1, d2] =>
    y1.isDigit && y2.isDigit && y3.isDigit && y4.isDigit && h1 == '-' &&
    m1.isDigit && m2.isDigit && h2 == '-' && d1.isDigit && d2.isDigit
  | _ => false

/-- Python `s.strip()`: leading and trailing whitespace removed. -/
def pyStrip (s : String) : String :=
  String.mk
    (((s.toList.dropWhile (·.isWhitespace)).reverse.dropWhile
      (·.isWhitespace)).reverse)

/-- `date.fromisoformat(s.strip())` as used on the all-day branch. -/
def date_fromisoformat (s : String) : Except PyError String :=
  let t := pyStrip s
  if isIsoDate t then .ok t else .error .valueError

/-- The arguments of `create_my_event` that feed the built event
(`calendar_name` only selects the target calendar and is omitted). -/
structure CreateArgs where
  summary : String
  start : String
  ends : String
  description : Option String
  location : Option String
  all_day : Bool
  timezone_name : Option String
  rrule : Option String
  alarm_minutes_before : Option Int
  alarm_configs : Option String
  deriving DecidableEq, Repr

/-- The VEVENT built by `create_my_event`: `description`, `location` and
`rrule` are added only when truthy; no `sequence` property is written, so a
fresh event's revision counter is absent (read back as 0). -/
structure CreatedEvent where
  uid : String
  summary : String
  dtstamp : Instant
  description : Option String
  location : Option String
  dtstart : TimeValue
  dtend : TimeValue
  rrule : Option String
  alarms : List Alarm
  deriving DecidableEq, Repr

/-- The timing choice of `create_my_event` (src/server.py lines 159-161 and
173-178): an all-day request re-reads start/end as bare ISO dates; a timed
request uses the already-parsed instants.  `evt.add('dtstart', None)` (an
absent timed instant) raises inside the icalendar library, modelled as
`ValueError`. -/
def resolve_timing (a : CreateArgs) (start_dt end_dt : Option Instant) :
    Except PyError (TimeValue × TimeValue) :=
  if a.all_day then
    match date_fromisoformat a.start, date_fromisoformat a.ends with
    | .ok sd, .ok ed => .ok (TimeValue.dateOnly sd, TimeValue.dateOnly ed)
    | .error e, _ => .error e
    | .ok _, .error e => .error e
  else
    match start_dt, end_dt with
    | some si, some ei => .ok (TimeValue.instant si, TimeValue.instant ei)
    | _, _ => Except.error PyError.valueError

/-- The event-building core of `create_my_event` (src/server.py lines
156-207), after the CalDAV connection: parse start/end (always, even for
all-day events), resolve the timing per `resolve_timing`, assemble the
VEVENT with a fresh `uid` and `dtstamp := now`, handle alarms, attach
enrichment output. -/
def create_my_event_core (uid : String) (now : Instant) (a : CreateArgs)
    (json_loads : String → Except PyError (List AlarmConfig))
    (enrich : Except String (List String)) :
    Except PyError (OutContainer CreatedEvent) :=
  match parse_iso_datetime (some a.start) a.timezone_name with
  | .error e => .error (.engine e)
  | .ok start_dt =>
  match parse_iso_datetime (some a.ends) a.timezone_name with
  | .error e => .error (.engine e)
  | .ok end_dt =>
  match resolve_timing a start_dt end_dt with
  | .error e => .error e
  | .ok timing =>
  match handle_alarms json_loads a.alarm_configs a.alarm_minutes_before with
  | .error e => .error (.engine e)
  | .ok alarms =>
  .ok { event := { uid := uid,
                   summary := a.summary,
                   dtstamp := now,
                   description := if truthy a.description then a.description else none,
                   location := if truthy a.location then a.location else none,
                   dtstart := timing.1,
                   dtend := timing.2,
                   rrule := if truthy a.rrule then a.rrule else none,
                   alarms := alarms },
        timezones := applied_timezones enrich }

/-- One entry of the `events` list returned by `list_my_events`; only the
keys the sort touches are modelled (`parse_event_from_ics` lives in the
missing `ical_utils.py`, and its other keys do not affect the claim). -/
structure ListedEvent where
  start : Option String
  summary : Option String
  calendar_name : String
  deriving DecidableEq, Repr

/-- The Python sort key `(e.get("start") or "", e.get("summary") or "")`:
a missing value is replaced by the empty string (and `"" or ""` is `""`). -/
def sortKey (e : ListedEvent) : String × String :=
  (e.start.getD "", e.summary.getD "")

/-- Python tuple comparison on the sort keys: lexicographic on
`(start, summary)`. -/
def keyLE (a b : ListedEvent) : Bool :=
  decide ((sortKey a).1 < (sortKey b).1) ||
    ((sortKey a).1 == (sortKey b).1 && decide ((sortKey a).2 ≤ (sortKey b).2))

/-- The post-processing of `list_my_events` (src/server.py lines 125-127):
sort the collected events by `(start, summary)` and, when a limit was given,
truncate to `[:max(0, int(limit))]`. -/
def list_my_events_post (events : List ListedEvent) (limit : Option Int) :
    List ListedEvent :=
  let sorted := events.mergeSort keyLE
  match limit with
  | none => sorted
  | some l => sorted.take (max 0 l).toNat

/-! ## Concrete sample data for witnesses and counterexamples -/

/-- A sample UTC instant used as an original creation stamp. -/
def utcStamp : Instant := { raw := "20240101T000000Z", zone := none }

/-- A later UTC instant used as the processing-time clock reading. -/
def laterStamp : Instant := { raw := "20250505T120000Z", zone := none }

/-- Sample reminder A. -/
def alarmA : Alarm :=
  { minutes_before := 5, message := "A", action := "DISPLAY", related := "START" }

/-- Sample reminder B. -/
def alarmB : Alarm :=
  { minutes_before := 10, message := "B", action := "AUDIO", related := "START" }

/-- Sample reminder C. -/
def alarmC : Alarm :=
  { minutes_before := 30, message := "C", action := "EMAIL", related := "END" }

/-- A fully populated original event with revision 4 and reminders A, B, C. -/
def sampleOriginal : VEvent :=
  { uid := "abc123@icloud-caldav-mcp", dtstamp := utcStamp,
    dtstart := .instant { raw := "20240101T090000Z", zone := none },
    dtend := .instant { raw := "20240101T100000Z", zone := none },
    summary := some "Standup", description := some "Daily sync",
    location := some "Room 1", rrule := some "FREQ=WEEKLY",
    sequence := some 4, alarms := [alarmA, alarmB, alarmC] }

/-- An original event carrying no description, location, recurrence rule,
revision counter or reminders. -/
def bareOriginal : VEvent :=
  { uid := "bare@icloud-caldav-mcp", dtstamp := utcStamp,
    dtstart := .instant { raw := "20240102T090000Z", zone := none },
    dtend := .instant { raw := "20240102T100000Z", zone := none },
    summary := some "Lunch", description := none, location := none,
    rrule := none, sequence := none, alarms := [] }

/-- The empty overlay: an update request that changes nothing. -/
def emptyOverlay : UpdateOverlay :=
  { uid := none, summary := none, start := none, ends := none,
    description := none, location := none, timezone_name := none, rrule := none }

/-- An overlay that attempts to smuggle a new identity into the event. -/
def evilOverlay : UpdateOverlay :=
  { emptyOverlay with uid := some "evil@attacker" }

/-- A `json.loads` stand-in that rejects every payload. -/
def jlNone : String → Except PyError (List AlarmConfig) :=
  fun _ => .error .jsonDecodeError

/-- A `json.loads` stand-in that returns one structured alarm config. -/
def jlOneCfg : String → Except PyError (List AlarmConfig) :=
  fun _ => .ok [{ minutes_before := some 25, description := some "Call",
                  action := none, related := none }]

/-- A `json.loads` stand-in returning one config with a negative offset. -/
def jlNegCfg : String → Except PyError (List AlarmConfig) :=
  fun _ => .ok [{ minutes_before := some (-5), description := none,
                  action := none, related := none }]

/-- Sample arguments for a timed event creation with a 15-minute reminder. -/
def sampleCreateArgs : CreateArgs :=
  { summary := "Dentist", start := "20240301T100000Z", ends := "20240301T110000Z",
    description := some "Checkup", location := none, all_day := false,
    timezone_name := none, rrule := none, alarm_minutes_before := some 15,
    alarm_configs := none }

/-- The same creation request with a negative reminder offset. -/
def negativeAlarmArgs : CreateArgs :=
  { sampleCreateArgs with alarm_minutes_before := some (-5) }

/-- The event emitted by updating `sampleOriginal` with the empty overlay. -/
def sampleUpdated : NewVEvent :=
  { uid := "abc123@icloud-caldav-mcp", dtstamp := utcStamp,
    dtstart := .instant { raw := "20240101T090000Z", zone := none },
    dtend := .instant { raw := "20240101T100000Z", zone := none },
    summary := "Standup", description := "Daily sync", location := "Room 1",
    rrule := some "FREQ=WEEKLY", sequence := 5,
    alarms := [alarmA, alarmB, alarmC] }

/-- The event emitted by updating `bareOriginal` with the empty overlay. -/
def bareUpdated : NewVEvent :=
  { uid := "bare@icloud-caldav-mcp", dtstamp := utcStamp,
    dtstart := .instant { raw := "20240102T090000Z", zone := none },
    dtend := .instant { raw := "20240102T100000Z", zone := none },
    summary := "Lunch", description := "None", location := "None",
    rrule := none, sequence := 1, alarms := [] }

/-- The event built by `sampleCreateArgs` at processing time `laterStamp`. -/
def sampleCreated : CreatedEvent :=
  { uid := "u1@icloud-caldav-mcp", summary := "Dentist", dtstamp := laterStamp,
    description := some "Checkup", location := none,
    dtstart := .instant { raw := "20240301T100000Z", zone := none },
    dtend := .instant { raw := "20240301T110000Z", zone := none },
    rrule := none,
    alarms := [{ minutes_before := 15, message := "Reminder",
                 action := "DISPLAY", related := "START" }] }

/-- A listed event with both sort keys present. -/
def listedX : ListedEvent :=
  { start := some "20240101T090000Z", summary := some "X",
    calendar_name := "Work" }

/-- A listed event with both sort keys missing. -/
def listedY : ListedEvent :=
  { start := none, summary := none, calendar_name := "Home" }

/-! ## Helper lemmas -/

/-- Field-level inversion of a successful `plan_update`: how every output
field is derived from the original and the overlay. -/
theorem plan_update_ok_inv (orig : VEvent) (ov : UpdateOverlay)
    (out : NewVEvent) (h : plan_update orig ov = .ok out) :
    out.uid = orig.uid ∧ out.dtstamp = orig.dtstamp ∧
    out.sequence = orig.sequence.getD 0 + 1 ∧ out.alarms = orig.alarms ∧
    out.summary = (if truthy ov.summary then ov.summary.getD ""
                   else pyStr orig.summary) ∧
    out.description = (if truthy ov.description then ov.description.getD ""
                       else pyStr orig.description) ∧
    out.location = (if truthy ov.location then ov.location.getD ""
                    else pyStr orig.location) ∧
    out.rrule = (if truthy ov.rrule then ov.rrule else orig.rrule) ∧
    (truthy ov.start = false → out.dtstart = orig.dtstart) ∧
    (truthy ov.ends = false → out.dtend = orig.dtend) := by
  unfold plan_update at h
  rcases hst : (if truthy ov.start then
      (parse_iso_req (ov.start.getD "") ov.timezone_name).map TimeValue.instant
    else Except.ok orig.dtstart) with e | v₁
  · rw [hst] at h; exact absurd h (by simp)
  · rw [hst] at h
    rcases hen : (if truthy ov.ends then
        (parse_iso_req (ov.ends.getD "") ov.timezone_name).map TimeValue.instant
      else Except.ok orig.dtend) with e | v₂
    · rw [hen] at h; exact absurd h (by simp)
    · rw [hen] at h
      cases h
      refine ⟨rfl, rfl, rfl, rfl, rfl, rfl, rfl, ?_, ?_, ?_⟩
      · cases htr : truthy ov.rrule <;> cases horr : orig.rrule <;> simp [htr, horr]
      · intro hf
        rw [hf] at hst
        simp only [Bool.false_eq_true, if_false, Except.ok.injEq] at hst
        exact hst.symm
      · intro hf
        rw [hf] at hen
        simp only [Bool.false_eq_true, if_false, Except.ok.injEq] at hen
        exact hen.symm

/-- Inversion of a successful `update_my_event_core` when the container's
first VEVENT is known: the merge came from that event. -/
theorem update_core_ok_inv (now : Instant) (c : OrigContainer)
    (ov : UpdateOverlay) (enrich : Except String (List String))
    (orig : VEvent) (rest : List VEvent) (out : OutContainer NewVEvent)
    (hc : c.vevents = orig :: rest)
    (hok : update_my_event_core now c ov enrich = .ok out) :
    plan_update orig ov = .ok out.event := by
  have hw : walk_vevent c = .ok orig := by simp [walk_vevent, hc]
  unfold update_my_event_core at hok
  rw [hw] at hok
  dsimp only at hok
  rcases hp : plan_update orig ov with e | ev <;> rw [hp] at hok
  · exact absurd hok (by simp)
  · cases hok; rfl

/-- Inversion of a successful `create_my_event_core`: identity, stamp,
summary and the alarm outcome of the built event. -/
theorem create_core_ok_inv (uid : String) (now : Instant) (a : CreateArgs)
    (jl : String → Except PyError (List AlarmConfig))
    (enrich : Except String (List String)) (out : OutContainer CreatedEvent)
    (hok : create_my_event_core uid now a jl enrich = .ok out) :
    out.event.uid = uid ∧ out.event.dtstamp = now ∧
    out.event.summary = a.summary ∧
    handle_alarms jl a.alarm_configs a.alarm_minutes_before =
      .ok out.event.alarms := by
  unfold create_my_event_core at hok
  rcases h1 : parse_iso_datetime (some a.start) a.timezone_name with e | sdt <;>
    rw [h1] at hok <;> dsimp only at hok
  · exact absurd hok (by simp)
  rcases h2 : parse_iso_datetime (some a.ends) a.timezone_name with e | edt <;>
    rw [h2] at hok <;> dsimp only at hok
  · exact absurd hok (by simp)
  rcases h3 : resolve_timing a sdt edt with e | tm <;>
    rw [h3] at hok <;> dsimp only at hok
  · exact absurd hok (by simp)
  rcases h4 : handle_alarms jl a.alarm_configs a.alarm_minutes_before
      with e | al <;> rw [h4] at hok <;> dsimp only at hok
  · exact absurd hok (by simp)
  cases hok
  exact ⟨rfl, rfl, rfl, rfl⟩

/-! ## Claims -/

/-- C1: for every update of an existing event, the emitted event carries a
revision counter exactly one above the original's (the first VEVENT of the
original wire bytes); an original with no revision field (absence read as 0)
yields revision 1. -/
theorem C1_update_increments_revision (now : Instant) (c : OrigContainer)
    (ov : UpdateOverlay) (enrich : Except String (List String))
    (orig : VEvent) (rest : List VEvent) (out : OutContainer NewVEvent)
    (hc : c.vevents = orig :: rest)
    (hok : update_my_event_core now c ov enrich = .ok out) :
    out.event.sequence = orig.sequence.getD 0 + 1 ∧
      (orig.sequence = none → out.event.sequence = 1) := by
  have h := plan_update_ok_inv orig ov out.event
    (update_core_ok_inv now c ov enrich orig rest out hc hok)
  refine ⟨h.2.2.1, fun hn => ?_⟩
  rw [h.2.2.1, hn]
  rfl

/-- Witness for C1: updating `bareOriginal` (no revision field) with the
empty overlay emits revision 1. -/
theorem C1_update_increments_revision_witness :
    update_my_event_core laterStamp ⟨[bareOriginal]⟩ emptyOverlay (.ok []) =
      .ok ⟨bareUpdated, []⟩ ∧ bareUpdated.sequence = 1 := by
  have h : update_my_event_core laterStamp ⟨[bareOriginal]⟩ emptyOverlay
      (.ok []) = .ok ⟨bareUpdated, []⟩ := rfl
  exact ⟨h, (C1_update_increments_revision laterStamp ⟨[bareOriginal]⟩
    emptyOverlay (.ok []) bareOriginal [] ⟨bareUpdated, []⟩ rfl h).2 rfl⟩

/-- C2 (failing-input exhibit): updating an original that carries no
DESCRIPTION and no LOCATION with an overlay that leaves both absent emits
the literal text `"None"` for both (`str(None)` in
`new_event.add("description", description if description else
str(original_event.get("description")))`), inventing fields the original
never had. -/
theorem C2_absent_fields_become_None :
    bareOriginal.description = none ∧ bareOriginal.location = none ∧
    emptyOverlay.description = none ∧ emptyOverlay.location = none ∧
    (plan_update bareOriginal emptyOverlay).map NewVEvent.description =
      .ok "None" ∧
    (plan_update bareOriginal emptyOverlay).map NewVEvent.location =
      .ok "None" :=
  ⟨rfl, rfl, rfl, rfl, rfl, rfl⟩

/-- C3: for every update of an existing event, the emitted uid and dtstamp
(creation stamp) equal the original's, whatever the overlay — in particular
an overlay carrying a uid cannot change the event's identity. -/
theorem C3_identity_immutable (now : Instant) (c : OrigContainer)
    (ov : UpdateOverlay) (enrich : Except String (List String))
    (orig : VEvent) (rest : List VEvent) (out : OutContainer NewVEvent)
    (hc : c.vevents = orig :: rest)
    (hok : update_my_event_core now c ov enrich = .ok out) :
    out.event.uid = orig.uid ∧ out.event.dtstamp = orig.dtstamp := by
  have h := plan_update_ok_inv orig ov out.event
    (update_core_ok_inv now c ov enrich orig rest out hc hok)
  exact ⟨h.1, h.2.1⟩

/-- Witness for C3: an overlay attempting to set a new uid still yields the
original uid and stamp. -/
theorem C3_identity_immutable_witness :
    update_my_event_core laterStamp ⟨[sampleOriginal]⟩ evilOverlay (.ok []) =
      .ok ⟨sampleUpdated, []⟩ ∧
    evilOverlay.uid = some "evil@attacker" ∧
    sampleUpdated.uid = sampleOriginal.uid ∧
    sampleUpdated.dtstamp = sampleOriginal.dtstamp := by
  have h : update_my_event_core laterStamp ⟨[sampleOriginal]⟩ evilOverlay
      (.ok []) = .ok ⟨sampleUpdated, []⟩ := rfl
  have h2 := C3_identity_immutable laterStamp ⟨[sampleOriginal]⟩ evilOverlay
    (.ok []) sampleOriginal [] ⟨sampleUpdated, []⟩ rfl h
  exact ⟨h, rfl, h2.1, h2.2⟩

/-- C4 counterexample: at processing time `laterStamp`, updating an original
stamped `utcStamp` emits the stamp `utcStamp` — the original's, not the
current processing time — so the update path does not write a fresh
production stamp. -/
theorem C4_update_stamp_not_fresh :
    (update_my_event_core laterStamp ⟨[sampleOriginal]⟩ emptyOverlay
        (.ok [])).map (fun o => o.event.dtstamp) = .ok utcStamp ∧
    utcStamp ≠ laterStamp :=
  ⟨rfl, by decide⟩

/-- C4 (amended): the creation path writes the single stamp field (dtstamp)
set to the current processing time, and the update path copies the
original's dtstamp verbatim, never rewriting it to the processing time. -/
theorem C4_amended_stamp_behavior :
    (∀ uid now a jl enrich out,
        create_my_event_core uid now a jl enrich = .ok out →
        out.event.dtstamp = now) ∧
    (∀ now c ov enrich orig rest out, c.vevents = orig :: rest →
        update_my_event_core now c ov enrich = .ok out →
        out.event.dtstamp = orig.dtstamp) := by
  constructor
  · intro uid now a jl enrich out hok
    exact (create_core_ok_inv uid now a jl enrich out hok).2.1
  · intro now c ov enrich orig rest out hc hok
    exact (plan_update_ok_inv orig ov out.event
      (update_core_ok_inv now c ov enrich orig rest out hc hok)).2.1

/-- Witness for the amended C4: concrete stamps on both paths. -/
theorem C4_amended_stamp_behavior_witness :
    sampleCreated.dtstamp = laterStamp ∧ sampleUpdated.dtstamp = utcStamp :=
  ⟨C4_amended_stamp_behavior.1 "u1@icloud-caldav-mcp" laterStamp
      sampleCreateArgs jlNone (.ok []) ⟨sampleCreated, []⟩ rfl,
   C4_amended_stamp_behavior.2 laterStamp ⟨[sampleOriginal]⟩ emptyOverlay
      (.ok []) sampleOriginal [] ⟨sampleUpdated, []⟩ rfl rfl⟩

/-- C5 counterexample: a creation request with `alarm_minutes_before = -5`
succeeds and produces an event carrying no reminder — no
`InvalidReminderOffset` (nor any other error) is signalled. -/
theorem C5_negative_offset_not_rejected :
    negativeAlarmArgs.alarm_minutes_before = some (-5) ∧
    (create_my_event_core "u9@icloud-caldav-mcp" utcStamp negativeAlarmArgs
        jlNone (.ok [])).map (fun o => o.event.alarms) = .ok [] :=
  ⟨rfl, rfl⟩

/-- C5 (amended): a negative `alarm_minutes_before` is silently skipped by
the `>= 0` guard on the creation path: no alarm is built and no error is
returned. -/
theorem C5_negative_offset_silently_skipped
    (jl : String → Except PyError (List AlarmConfig)) (n : Int) (hn : n < 0) :
    handle_alarms jl none (some n) = .ok [] := by
  simp [handle_alarms, truthy, not_le.mpr hn]

/-- Witness for the amended C5 at offset -1. -/
theorem C5_negative_offset_silently_skipped_witness :
    handle_alarms jlNone none (some (-1)) = .ok [] :=
  C5_negative_offset_silently_skipped jlNone (-1) (by decide)

/-- C6 counterexample: a container holding two primary event records decodes
successfully — the first record is used and no `MalformedContainer` error
exists — contradicting "decode succeeds only when exactly one primary event
record is present". -/
theorem C6_two_events_decode_succeeds :
    (OrigContainer.mk [sampleOriginal, bareOriginal]).vevents.length = 2 ∧
    walk_vevent ⟨[sampleOriginal, bareOriginal]⟩ = .ok sampleOriginal ∧
    (update_my_event_core laterStamp ⟨[sampleOriginal, bareOriginal]⟩
        emptyOverlay (.ok [])).isOk = true :=
  ⟨rfl, rfl, rfl⟩

/-- C6 (amended): locating the primary event record fails (with a generic
`StopIteration`-driven failure, not a typed `MalformedContainer`) only when
the container holds zero VEVENTs; with one or more it succeeds and uses the
first record in wire order. -/
theorem C6_first_event_used (c : OrigContainer) :
    (c.vevents = [] → walk_vevent c = .error .stopIteration) ∧
    ∀ e rest, c.vevents = e :: rest → walk_vevent c = .ok e := by
  constructor
  · intro h
    simp [walk_vevent, h]
  · intro e rest h
    simp [walk_vevent, h]

/-- Witness for the amended C6: the empty container fails the locate step. -/
theorem C6_first_event_used_witness :
    walk_vevent ⟨[]⟩ = .error .stopIteration :=
  (C6_first_event_used ⟨[]⟩).1 rfl

/-- C7: for every update (whose overlay cannot mention reminders at all),
the emitted event carries exactly the original's reminder sub-objects in
wire order. -/
theorem C7_reminder_order_preserved (now : Instant) (c : OrigContainer)
    (ov : UpdateOverlay) (enrich : Except String (List String))
    (orig : VEvent) (rest : List VEvent) (out : OutContainer NewVEvent)
    (hc : c.vevents = orig :: rest)
    (hok : update_my_event_core now c ov enrich = .ok out) :
    out.event.alarms = orig.alarms :=
  (plan_update_ok_inv orig ov out.event
    (update_core_ok_inv now c ov enrich orig rest out hc hok)).2.2.2.1

/-- Witness for C7: reminders [A, B, C] come through in order. -/
theorem C7_reminder_order_preserved_witness :
    sampleOriginal.alarms = [alarmA, alarmB, alarmC] ∧
    sampleUpdated.alarms = [alarmA, alarmB, alarmC] := by
  refine ⟨rfl, ?_⟩
  exact C7_reminder_order_preserved laterStamp ⟨[sampleOriginal]⟩ emptyOverlay
    (.ok []) sampleOriginal [] ⟨sampleUpdated, []⟩ rfl rfl

/-- C8: when a truthy `alarm_configs` string is supplied, the alarm handling
is independent of `alarm_minutes_before` — the structured list takes
precedence and the single offset contributes nothing. -/
theorem C8_structured_list_precedence
    (jl : String → Except PyError (List AlarmConfig)) (s : String)
    (mb : Option Int) (hs : s ≠ "") :
    handle_alarms jl (some s) mb = handle_alarms jl (some s) none := by
  unfold handle_alarms
  have ht : truthy (some s) = true := by simp [truthy, hs]
  rw [ht]
  simp

/-- Witness for C8: with a structured 25-minute config and a 15-minute
single offset, only the structured reminder appears. -/
theorem C8_structured_list_precedence_witness :
    handle_alarms jlOneCfg (some "x") (some 15) =
      handle_alarms jlOneCfg (some "x") none ∧
    handle_alarms jlOneCfg (some "x") (some 15) =
      .ok [{ minutes_before := 25, message := "Call", action := "DISPLAY",
             related := "START" }] :=
  ⟨C8_structured_list_precedence jlOneCfg "x" (some 15) (by decide), rfl⟩

/-- C9 counterexample: zone enrichment is not the only discarded engine
error — an `InvalidReminderOffset` raised by `create_alarm` inside the
structured-alarm branch of creation is swallowed by `except Exception:
pass`: the build succeeds with no alarms and no surfaced error. -/
theorem C9_alarm_errors_also_discarded :
    create_alarm (-5) "Reminder" "DISPLAY" "START" =
      .error .invalidReminderOffset ∧
    handle_alarms jlNegCfg (some "x") none = .ok [] ∧
    (create_my_event_core "u9@icloud-caldav-mcp" utcStamp
        { sampleCreateArgs with alarm_configs := some "x",
                                alarm_minutes_before := none }
        jlNegCfg (.ok [])).map (fun o => o.event.alarms) = .ok [] :=
  ⟨rfl, rfl, rfl⟩

/-- C9 (amended): failure of the best-effort zone enrichment never aborts
encoding on either path — the result is identical to a run whose enrichment
succeeded with nothing to add, so the produced bytes remain valid without
it; it is however not the only discarded engine error (see the
counterexample). -/
theorem C9_enrichment_failure_harmless :
    (∀ uid now a jl err, create_my_event_core uid now a jl (.error err) =
        create_my_event_core uid now a jl (.ok [])) ∧
    (∀ now c ov err, update_my_event_core now c ov (.error err) =
        update_my_event_core now c ov (.ok [])) := by
  constructor <;> intros <;> rfl

/-- The sort-key comparison is transitive. -/
theorem keyLE_trans : ∀ a b c : ListedEvent, keyLE a b → keyLE b c → keyLE a c := by
  intro a b c hab hbc
  unfold keyLE at *
  simp only [Bool.or_eq_true, Bool.and_eq_true, decide_eq_true_eq,
    beq_iff_eq] at *
  rcases hab with h1 | ⟨h1e, h1le⟩ <;> rcases hbc with h2 | ⟨h2e, h2le⟩
  · exact Or.inl (lt_trans h1 h2)
  · exact Or.inl (lt_of_lt_of_le h1 (le_of_eq h2e))
  · exact Or.inl (lt_of_le_of_lt (le_of_eq h1e) h2)
  · exact Or.inr ⟨h1e.trans h2e, le_trans h1le h2le⟩

/-- The sort-key comparison is total. -/
theorem keyLE_total : ∀ a b : ListedEvent, keyLE a b || keyLE b a := by
  intro a b
  unfold keyLE
  simp only [Bool.or_eq_true, Bool.and_eq_true, decide_eq_true_eq, beq_iff_eq]
  rcases lt_trichotomy (sortKey a).1 (sortKey b).1 with h | h | h
  · exact Or.inl (Or.inl h)
  · rcases le_total (sortKey a).2 (sortKey b).2 with h2 | h2
    · exact Or.inl (Or.inr ⟨h, h2⟩)
    · exact Or.inr (Or.inr ⟨h.symm, h2⟩)
  · exact Or.inr (Or.inl h)

/-- C10: with a non-null limit the returned list has length at most
`max 0 limit` (a negative limit yields the empty list, never an error), and
it is the truncation of the collected events sorted ascending by the pair
(start, summary) with missing values read as the empty string. -/
theorem C10_list_post_spec (events : List ListedEvent) (l : Int) :
    (list_my_events_post events (some l)).length ≤ (max 0 l).toNat ∧
    (l < 0 → list_my_events_post events (some l) = []) ∧
    List.Pairwise (fun a b => keyLE a b = true) (events.mergeSort keyLE) ∧
    list_my_events_post events (some l) =
      (events.mergeSort keyLE).take (max 0 l).toNat := by
  refine ⟨?_, ?_, ?_, rfl⟩
  · exact List.length_take_le (max 0 l).toNat (events.mergeSort keyLE)
  · intro hl
    have h0 : max 0 l = 0 := max_eq_left hl.le
    simp [list_my_events_post, h0]
  · exact List.sorted_mergeSort keyLE_trans keyLE_total events

/-- Witness for C10: a negative limit yields the empty list. -/
theorem C10_list_post_spec_witness :
    list_my_events_post [listedX, listedY] (some (-3)) = [] :=
  (C10_list_post_spec [listedX, listedY] (-3)).2.1 (by decide)

end ICalPokeBridge
